import Mathlib

/-!
Shallow embedding of the weave docker network plugin
(`plugin/driver/driver.go`, `plugin/driver/watcher.go`).

External collaborators (the docker client, the address allocator, netlink)
are modelled as oracles passed to the handlers; each handler becomes a pure
function from its decoded request and the driver state to a response plus
the updated state / the external calls it issues.  Go string slicing
`s[:n]`, which panics when `n > len(s)`, is modelled as an `Option`.
-/

namespace WeavePlugin

/-- Constants from `driver.go` / `watcher.go`. -/
def WeaveBridge : String := "weave"

def WeaveDomain : String := "weave.local"

/-- Responses a handler can write: transport-level errors (`sendError`),
payload-level errors (`errorResponsef`, the JSON object with an Err field),
the empty acknowledgment (`emptyResponse`) and the object responses of
CreateEndpoint and Join (`objectResponse`). -/
inductive Response where
  | badRequest (msg : String)
  | serverError (msg : String)
  | errPayload (msg : String)
  | empty
  | endpointInfo (address mac : String)
  | joinInfo (srcName dstPfx : String) (staticRoutes : List String)
deriving DecidableEq, Repr

/-- The watcher's `networks map[string]bool` together with the driver's
`network` and `nameserver` strings; Go's zero value for a string field is
`""`, so a fresh driver has `network = ""`. -/
structure DriverState where
  network : String
  nameserver : String
  watched : List String
deriving DecidableEq, Repr

/-- `watcher.WatchNetwork`: `w.networks[uuid] = true` (map insert; a set,
so inserting a present key is a no-op). -/
def WatchNetwork (s : List String) (uuid : String) : List String :=
  if uuid ∈ s then s else uuid :: s

/-- `watcher.UnwatchNetwork`: `delete(w.networks, uuid)`. -/
def UnwatchNetwork (s : List String) (uuid : String) : List String :=
  s.filter (fun x => x ≠ uuid)

/-- `driver.createNetwork` after a successful JSON decode: if
`driver.network != ""` reply with the one-network error payload, else store
the id, push it into the watcher and acknowledge. -/
def createNetwork (s : DriverState) (networkID : String) : DriverState × Response :=
  if s.network ≠ "" then
    (s, .errPayload ("You get just one network, and you already made " ++ s.network))
  else
    ({ s with network := networkID, watched := WatchNetwork s.watched networkID }, .empty)

/-- `driver.deleteNetwork` after a successful JSON decode: mismatching id
yields the not-found payload, a matching id clears the network and
unwatches it. -/
def deleteNetwork (s : DriverState) (networkID : String) : DriverState × Response :=
  if networkID ≠ s.network then
    (s, .errPayload ("Network " ++ networkID ++ " not found"))
  else
    ({ s with network := "", watched := UnwatchNetwork s.watched networkID }, .empty)

/-- Run a sequence of CreateNetwork requests, collecting the responses. -/
def runCreates (s : DriverState) (ids : List String) : List Response :=
  match ids with
  | [] => []
  | n :: rest =>
    let t := createNetwork s n
    t.2 :: runCreates t.1 rest

/-- `strings.HasSuffix` from the Go standard library, on the character
sequence of the strings. -/
def hasSuffix (s suffix : String) : Bool :=
  suffix.data.isSuffixOf s.data

/-- `isSubdomain` from `watcher.go`: `x == y || strings.HasSuffix(x, "."+y)`. -/
def isSubdomain (x y : String) : Bool :=
  x == y || hasSuffix x ("." ++ y)

/-! ## The event watcher -/

/-- The fields of the inspected container the watcher reads:
`info.Config.Hostname`, `info.Config.Domainname`,
`info.NetworkSettings.IPAddress`. -/
structure ContainerInfo where
  hostname : String
  domainname : String
  ipAddress : String
deriving DecidableEq, Repr

/-- A docker API event as consumed by the watcher loop. -/
structure Event where
  status : String
  id : String
deriving DecidableEq, Repr

/-- Calls the watcher issues against weaveDNS. -/
inductive DNSAction where
  | register (containerID fqdn ip : String)
  | deregister (containerID ip : String)
deriving DecidableEq, Repr

/-- `watcher.ContainerStart`: inspect the container (the oracle returns
`none` when inspection fails, in which case the event is dropped); if its
domain is the weave domain or a subdomain, register `<hostname>.<domainname>`
at the container's address.  A registration failure is only logged, so the
attempted call is the observable effect. -/
def ContainerStart (inspect : String → Option ContainerInfo) (id : String) :
    List DNSAction :=
  match inspect id with
  | none => []
  | some info =>
    if isSubdomain info.domainname WeaveDomain then
      [.register id (info.hostname ++ "." ++ info.domainname) info.ipAddress]
    else
      []

/-- `watcher.ContainerDied`: same inspection and domain check, then
deregister the container's address. -/
def ContainerDied (inspect : String → Option ContainerInfo) (id : String) :
    List DNSAction :=
  match inspect id with
  | none => []
  | some info =>
    if isSubdomain info.domainname WeaveDomain then
      [.deregister id info.ipAddress]
    else
      []

/-- One iteration of the watcher's event loop (`NewWatcher`'s goroutine):
dispatch on the event status, ignoring everything but start and die. -/
def handleEvent (inspect : String → Option ContainerInfo) (e : Event) :
    List DNSAction :=
  match e.status with
  | "start" => ContainerStart inspect e.id
  | "die" => ContainerDied inspect e.id
  | _ => []

/-! ## MAC derivation (`makeMac`) -/

/-- An IPv4 address as four octets. -/
structure IPv4 where
  o1 : Fin 256
  o2 : Fin 256
  o3 : Fin 256
  o4 : Fin 256
deriving DecidableEq, Repr

/-- The digit table of `net.HardwareAddr.String`. -/
def hexDigitTable : String := "0123456789abcdef"

/-- Indexing into the digit table, as in `buf = append(buf, hexDigit[b>>4])`. -/
def hexDigit (n : Nat) : Char :=
  hexDigitTable.data.getD n '0'

/-- One byte as `hexDigit[b>>4]`, `hexDigit[b&0xF]`. -/
def byteHex (b : Fin 256) : List Char :=
  [hexDigit (b.val / 16), hexDigit (b.val % 16)]

/-- `net.HardwareAddr.String`: hex bytes joined by colons. -/
def hwAddrChars (bs : List (Fin 256)) : List Char :=
  match bs with
  | [] => []
  | b :: rest => byteHex b ++ rest.foldr (fun c acc => ':' :: byteHex c ++ acc) []

/-- `makeMac` from `driver.go`: bytes `0x7a, 0x42` followed by the four
octets of the IPv4 address, rendered by `HardwareAddr.String`. -/
def makeMac (ip : IPv4) : String :=
  ⟨hwAddrChars [⟨0x7a, by decide⟩, ⟨0x42, by decide⟩, ip.o1, ip.o2, ip.o3, ip.o4]⟩

/-! ## Endpoint handlers -/

/-- Go string slicing `s[:n]`: panics (`none`) when `n > len(s)`. -/
def goSliceTo (s : String) (n : Nat) : Option String :=
  if n ≤ s.length then some ⟨s.data.take n⟩ else none

/-- A veth pair as named by `vethPair`: the link name and its peer name. -/
structure Veth where
  name : String
  peerName : String
deriving DecidableEq, Repr

/-- `vethPair` from `driver.go`. -/
def vethPair (suffix : String) : Veth :=
  ⟨"vethwl" ++ suffix, "vethwg" ++ suffix⟩

/-- What `netlink.LinkByName(WeaveBridge)` can find. -/
inductive BridgeLookup where
  | missing
  | notBridge
  | bridge
deriving DecidableEq, Repr

/-- Oracle for the netlink calls made by Join and Leave. -/
structure Netlink where
  linkAddOk : Veth → Bool
  lookup : BridgeLookup
  setMasterOk : Bool
  setUpOk : Bool
  linkDelOk : Veth → Bool

/-- Result of a Join: the veth pair handed to `netlink.LinkAdd` and the
response written. -/
structure JoinOutcome where
  created : Veth
  response : Response
deriving DecidableEq, Repr

/-- `driver.joinEndpoint` after a successful JSON decode.  `endID[:5]`
panics on a short id (`none`); otherwise the handler builds the veth pair,
adds it, finds the bridge, attaches and brings the link up, and on success
answers with the peer name, the fixed `ethwe` destination name and — when a
nameserver is configured — a `/32` static route to it. -/
def joinEndpoint (nl : Netlink) (s : DriverState) (endpointID : String) :
    Option JoinOutcome :=
  match goSliceTo endpointID 5 with
  | none => none
  | some suffix =>
    let loc := vethPair suffix
    some <|
      if ¬ nl.linkAddOk loc then ⟨loc, .errPayload "could not create veth pair"⟩
      else
        match nl.lookup with
        | .missing => ⟨loc, .errPayload ("bridge \"" ++ WeaveBridge ++ "\" not present")⟩
        | .notBridge => ⟨loc, .errPayload ("device \"" ++ WeaveBridge ++ "\" not a bridge")⟩
        | .bridge =>
          if ¬ nl.setMasterOk ∨ ¬ nl.setUpOk then
            ⟨loc, .errPayload "unable to bring veth up"⟩
          else
            ⟨loc, .joinInfo loc.peerName "ethwe"
              (if s.nameserver ≠ "" then [s.nameserver ++ "/32"] else [])⟩

/-- Result of a Leave: the veth pair handed to `netlink.LinkDel`, whether
the deletion failure was logged, and the response written. -/
structure LeaveOutcome where
  deleted : Veth
  warned : Bool
  response : Response
deriving DecidableEq, Repr

/-- `driver.leaveEndpoint` after a successful JSON decode: derive the same
veth pair from `endID[:5]` (panicking on a short id), attempt to delete it
— logging, never surfacing, a failure — and acknowledge with the empty
response. -/
def leaveEndpoint (nl : Netlink) (endpointID : String) : Option LeaveOutcome :=
  match goSliceTo endpointID 5 with
  | none => none
  | some suffix =>
    let loc := vethPair suffix
    some ⟨loc, ¬ nl.linkDelOk loc, .empty⟩

/-- Result of a DeleteEndpoint: the response (written before the release is
even attempted) and whether a release failure was logged. -/
structure DeleteEPOutcome where
  response : Response
  warned : Bool
deriving DecidableEq, Repr

/-- `driver.deleteEndpoint` after a successful JSON decode: write the empty
response, then call `releaseIP` (the oracle returns `some err` on failure)
and log any error. -/
def deleteEndpoint (releaseIP : String → Option String) (endpointID : String) :
    DeleteEPOutcome :=
  ⟨.empty, (releaseIP endpointID).isSome⟩

/-- The address handed back by the IPAM: an IPv4 plus a mask width, shown
as `a.b.c.d/m` by `(*net.IPNet).String`. -/
structure IPNet where
  ip : IPv4
  maskBits : Nat
deriving DecidableEq, Repr

/-- `(*net.IPNet).String` for an IPv4 network. -/
def ipnetString (i : IPNet) : String :=
  toString i.ip.o1.val ++ "." ++ toString i.ip.o2.val ++ "." ++
    toString i.ip.o3.val ++ "." ++ toString i.ip.o4.val ++ "/" ++ toString i.maskBits

/-- `driver.createEndpoint` after a successful JSON decode: reject a
network id other than the stored one before touching the allocator;
otherwise ask the allocator (the oracle, `none` = allocation error) for an
address keyed by the endpoint id, and answer with the address and the MAC
derived from it.  The second component records every `allocateIP` call
made. -/
def createEndpoint (alloc : String → Option IPNet) (s : DriverState)
    (networkID endpointID : String) : Response × List String :=
  if networkID ≠ s.network then
    (.errPayload ("No such network " ++ networkID), [])
  else
    match alloc endpointID with
    | none => (.serverError "Unable to allocate IP", [endpointID])
    | some ipn => (.endpointInfo (ipnetString ipn) (makeMac ipn.ip), [endpointID])

/-! ## Helper lemmas -/

lemma createNetwork_busy (s : DriverState) (h : s.network ≠ "") (nid : String) :
    createNetwork s nid =
      (s, .errPayload ("You get just one network, and you already made " ++ s.network)) := by
  simp [createNetwork, h]

lemma runCreates_busy (s : DriverState) (h : s.network ≠ "") :
    ∀ ids r, r ∈ runCreates s ids → ∃ m, r = Response.errPayload m := by
  intro ids
  induction ids with
  | nil => intro r hr; simp [runCreates] at hr
  | cons n rest ih =>
    intro r hr
    simp only [runCreates, createNetwork_busy s h n] at hr
    rcases List.mem_cons.mp hr with h1 | h1
    · exact ⟨_, h1⟩
    · exact ih r h1

/-! ## Claims about the network lifecycle -/

/-- Claim C1 (amended): restricted to CreateNetwork requests carrying a
nonempty NetworkID, only the first succeeds until a matching DeleteNetwork:
while the stored network id is nonempty every CreateNetwork fails with the
already-provisioned payload naming the stored id and changes neither the
stored id nor the WatchedNetworkSet; when the stored id is the empty string
the request stores the new id, adds it to the WatchedNetworkSet and
succeeds with the empty acknowledgment, and every later CreateNetwork in
the sequence fails with an error payload. -/
theorem claim1_amended :
    ∀ (s : DriverState) (nid : String) (rest : List String),
      (s.network ≠ "" →
        createNetwork s nid =
          (s, Response.errPayload
            ("You get just one network, and you already made " ++ s.network))) ∧
      (s.network = "" →
        (createNetwork s nid).1.network = nid ∧
        (createNetwork s nid).1.watched = WatchNetwork s.watched nid ∧
        nid ∈ (createNetwork s nid).1.watched ∧
        (createNetwork s nid).2 = Response.empty) ∧
      (s.network = "" → nid ≠ "" →
        runCreates s (nid :: rest) =
          Response.empty :: runCreates (createNetwork s nid).1 rest ∧
        ∀ r ∈ runCreates (createNetwork s nid).1 rest,
          ∃ m, r = Response.errPayload m) := by
  intro s nid rest
  refine ⟨fun h => createNetwork_busy s h nid, fun h => ?_, fun h hnid => ?_⟩
  · refine ⟨by simp [createNetwork, h], by simp [createNetwork, h], ?_,
      by simp [createNetwork, h]⟩
    have hw : (createNetwork s nid).1.watched = WatchNetwork s.watched nid := by
      simp [createNetwork, h]
    rw [hw]
    unfold WatchNetwork
    split
    · assumption
    · exact List.mem_cons_self nid _
  · have h2 : (createNetwork s nid).2 = Response.empty := by simp [createNetwork, h]
    have hstate : (createNetwork s nid).1.network = nid := by simp [createNetwork, h]
    refine ⟨by rw [runCreates]; rw [h2], ?_⟩
    exact runCreates_busy _ (by rw [hstate]; exact hnid) rest

/-- Witness for C1 at a concrete state: a second CreateNetwork while
`net1` is active fails without mutating state, and a fresh driver accepts
the first create of a two-request sequence. -/
theorem claim1_witness :
    createNetwork ⟨"net1", "", ["net1"]⟩ "net2" =
      (⟨"net1", "", ["net1"]⟩,
        Response.errPayload ("You get just one network, and you already made " ++ "net1")) ∧
    runCreates ⟨"", "", []⟩ ("net1" :: ["net2"]) =
      Response.empty :: runCreates (createNetwork ⟨"", "", []⟩ "net1").1 ["net2"] :=
  ⟨(claim1_amended ⟨"net1", "", ["net1"]⟩ "net2" []).1 (by decide),
   ((claim1_amended ⟨"", "", []⟩ "net1" ["net2"]).2.2 rfl (by decide)).1⟩

/-- Counterexample to C1 as stated: starting from a fresh driver, the
sequence CreateNetwork "" followed by CreateNetwork "net2" contains two
successful creates with no intervening DeleteNetwork, because the code
represents "no network" as the empty string. -/
theorem claim1_counterexample :
    (createNetwork ⟨"", "", []⟩ "").2 = Response.empty ∧
    (createNetwork (createNetwork ⟨"", "", []⟩ "").1 "net2").2 = Response.empty := by
  decide

/-- Claim C2 (amended): a DeleteNetwork request whose networkId differs
from the stored network id string — in particular any request with a
nonempty id while no network exists — fails with the not-found payload and
leaves the stored id and the WatchedNetworkSet unchanged; a request whose
id equals the stored string clears the id and removes it from the
WatchedNetworkSet. -/
theorem claim2_amended :
    ∀ (s : DriverState) (nid : String),
      (nid ≠ s.network →
        deleteNetwork s nid =
          (s, Response.errPayload ("Network " ++ nid ++ " not found"))) ∧
      (nid = s.network →
        (deleteNetwork s nid).1.network = "" ∧
        (deleteNetwork s nid).1.watched = UnwatchNetwork s.watched nid ∧
        nid ∉ (deleteNetwork s nid).1.watched ∧
        (deleteNetwork s nid).2 = Response.empty) := by
  intro s nid
  refine ⟨fun h => by simp [deleteNetwork, h], fun h => ?_⟩
  refine ⟨by simp [deleteNetwork, h], by simp [deleteNetwork, h], ?_,
    by simp [deleteNetwork, h]⟩
  have hw : (deleteNetwork s nid).1.watched = UnwatchNetwork s.watched nid := by
    simp [deleteNetwork, h]
  rw [hw]
  unfold UnwatchNetwork
  simp [List.mem_filter]

/-- Witness for C2 at a concrete state: deleting `other` while `net1` is
stored fails with the not-found payload, and deleting `net1` clears it. -/
theorem claim2_witness :
    deleteNetwork ⟨"net1", "", ["net1"]⟩ "other" =
      (⟨"net1", "", ["net1"]⟩, Response.errPayload ("Network " ++ "other" ++ " not found")) ∧
    (deleteNetwork ⟨"net1", "", ["net1"]⟩ "net1").2 = Response.empty :=
  ⟨(claim2_amended ⟨"net1", "", ["net1"]⟩ "other").1 (by decide),
   ((claim2_amended ⟨"net1", "", ["net1"]⟩ "net1").2 rfl).2.2.2⟩

/-- Counterexample to C2 as stated: with no ManagedNetwork, a
DeleteNetwork request with the empty NetworkID succeeds with the empty
acknowledgment instead of failing with not-found, because the empty string
compares equal to the empty-string representation of "no network". -/
theorem claim2_counterexample :
    deleteNetwork ⟨"", "", []⟩ "" = (⟨"", "", []⟩, Response.empty) := by
  decide

/-- Claim C9: the absence of a ManagedNetwork is the empty-string network
id, so a CreateNetwork with the empty NetworkID is accepted yet leaves the
driver with the empty id (and a later nonempty CreateNetwork still
succeeds), a DeleteNetwork with the empty NetworkID succeeds whenever no
network exists, and the one-network rejection fires exactly when the stored
id is nonempty. -/
theorem claim9 :
    ∀ (s : DriverState) (nid : String),
      (s.network = "" →
        (createNetwork s "").2 = Response.empty ∧ (createNetwork s "").1.network = "") ∧
      (s.network = "" → nid ≠ "" →
        (createNetwork (createNetwork s "").1 nid).2 = Response.empty ∧
        (createNetwork (createNetwork s "").1 nid).1.network = nid) ∧
      (s.network = "" → (deleteNetwork s "").2 = Response.empty) ∧
      (s.network ≠ "" →
        (createNetwork s nid).2 =
          Response.errPayload
            ("You get just one network, and you already made " ++ s.network)) := by
  intro s nid
  refine ⟨fun h => by simp [createNetwork, h], fun h hn => ?_,
    fun h => by simp [deleteNetwork, h], fun h => by simp [createNetwork, h]⟩
  have h1 : (createNetwork s "").1.network = "" := by simp [createNetwork, h]
  generalize (createNetwork s "").1 = t at h1 ⊢
  exact ⟨by simp [createNetwork, h1], by simp [createNetwork, h1]⟩

/-- Witness for C9 at the fresh driver state and the id `net1`. -/
theorem claim9_witness :
    (createNetwork ⟨"", "", []⟩ "").2 = Response.empty ∧
    (createNetwork (createNetwork ⟨"", "", []⟩ "").1 "net1").2 = Response.empty ∧
    (deleteNetwork ⟨"", "", []⟩ "").2 = Response.empty :=
  ⟨((claim9 ⟨"", "", []⟩ "net1").1 rfl).1,
   ((claim9 ⟨"", "", []⟩ "net1").2.1 rfl (by decide)).1,
   (claim9 ⟨"", "", []⟩ "net1").2.2.1 rfl⟩

/-! ## Claims about the watcher -/

/-- Claim C3: a start event for a container whose configured domain equals
the managed domain or is a dotted subdomain of it makes the watcher
register exactly `(containerId, hostname.domainname, ip)`; a die event
under the same condition deregisters `(containerId, ip)`; an event whose
container domain does not match, or whose status is neither start nor die,
triggers neither call. -/
theorem claim3 :
    ∀ (inspect : String → Option ContainerInfo) (e : Event) (info : ContainerInfo),
      (e.status = "start" → inspect e.id = some info →
        isSubdomain info.domainname WeaveDomain = true →
        handleEvent inspect e =
          [DNSAction.register e.id (info.hostname ++ "." ++ info.domainname)
            info.ipAddress]) ∧
      (e.status = "die" → inspect e.id = some info →
        isSubdomain info.domainname WeaveDomain = true →
        handleEvent inspect e = [DNSAction.deregister e.id info.ipAddress]) ∧
      (inspect e.id = some info → isSubdomain info.domainname WeaveDomain = false →
        handleEvent inspect e = []) ∧
      (e.status ≠ "start" → e.status ≠ "die" → handleEvent inspect e = []) := by
  intro inspect e info
  refine ⟨fun h1 h2 h3 => ?_, fun h1 h2 h3 => ?_, fun h1 h2 => ?_, fun h1 h2 => ?_⟩
  · simp [handleEvent, h1, ContainerStart, h2, h3]
  · simp [handleEvent, h1, ContainerDied, h2, h3]
  · unfold handleEvent
    split
    · simp [ContainerStart, h1, h2]
    · simp [ContainerDied, h1, h2]
    · rfl
  · unfold handleEvent
    split
    next hs => exact absurd hs h1
    next hs => exact absurd hs h2
    next => rfl

/-- Witness for C3: a start event for a container configured with hostname
`box` in `weave.local` leads to exactly one registration carrying
`box.weave.local` and the container's address. -/
theorem claim3_witness :
    handleEvent (fun _ => some ⟨"box", "weave.local", "10.0.0.5"⟩) ⟨"start", "c1"⟩ =
      [DNSAction.register "c1" ("box" ++ "." ++ "weave.local") "10.0.0.5"] :=
  (claim3 (fun _ => some ⟨"box", "weave.local", "10.0.0.5"⟩) ⟨"start", "c1"⟩
    ⟨"box", "weave.local", "10.0.0.5"⟩).1 rfl rfl (by decide)

/-! ## Claims about the MAC derivation -/

lemma hexDigit_injOn : ∀ x y : Fin 16, hexDigit x.val = hexDigit y.val → x = y := by
  decide

lemma byteHex_inj (x y : Fin 256)
    (h1 : hexDigit (x.val / 16) = hexDigit (y.val / 16))
    (h2 : hexDigit (x.val % 16) = hexDigit (y.val % 16)) : x = y := by
  have hx : x.val < 256 := x.isLt
  have hy : y.val < 256 := y.isLt
  have e1 : (⟨x.val / 16, by omega⟩ : Fin 16) = ⟨y.val / 16, by omega⟩ :=
    hexDigit_injOn _ _ h1
  have e2 : (⟨x.val % 16, by omega⟩ : Fin 16) = ⟨y.val % 16, by omega⟩ :=
    hexDigit_injOn _ _ h2
  have d1 : x.val / 16 = y.val / 16 := congrArg Fin.val e1
  have d2 : x.val % 16 = y.val % 16 := congrArg Fin.val e2
  exact Fin.ext (by omega)

/-- Claim C4: the hardware address derived from an IPv4 address is the two
fixed bytes `7a:42` followed by the four octets in hex (`10.0.0.1` maps to
`7a:42:0a:00:00:01`), the derivation is deterministic, and distinct IPv4
addresses always derive distinct hardware addresses. -/
theorem claim4 :
    makeMac ⟨10, 0, 0, 1⟩ = "7a:42:0a:00:00:01" ∧
    (∀ a b : IPv4, a = b → makeMac a = makeMac b) ∧
    (∀ a b : IPv4, a ≠ b → makeMac a ≠ makeMac b) := by
  refine ⟨by decide, fun a b h => by rw [h], fun a b hne heq => hne ?_⟩
  rw [String.ext_iff] at heq
  simp only [makeMac, hwAddrChars, byteHex, List.foldr,
    List.cons_append, List.nil_append, List.cons.injEq, and_true] at heq
  obtain ⟨-, -, -, -, -, -, h1a, h1b, -, h2a, h2b, -, h3a, h3b, -, h4a, h4b⟩ := heq
  obtain ⟨a1, a2, a3, a4⟩ := a
  obtain ⟨b1, b2, b3, b4⟩ := b
  simp only [IPv4.mk.injEq]
  exact ⟨byteHex_inj _ _ h1a h1b, byteHex_inj _ _ h2a h2b,
    byteHex_inj _ _ h3a h3b, byteHex_inj _ _ h4a h4b⟩

/-- Witness for C4: `10.0.0.1` and `10.0.0.2` are distinct addresses and
derive distinct hardware addresses. -/
theorem claim4_witness :
    makeMac ⟨10, 0, 0, 1⟩ ≠ makeMac ⟨10, 0, 0, 2⟩ :=
  claim4.2.2 ⟨10, 0, 0, 1⟩ ⟨10, 0, 0, 2⟩ (by decide)

/-! ## Claims about the subdomain predicate -/

/-- Claim C8: `isSubdomain x y` holds exactly when `x = y` or `x` ends
with a dot followed by `y`, and in particular the four sample inputs of the
specification evaluate as stated. -/
theorem claim8 :
    (∀ x y : String,
      isSubdomain x y = true ↔ x = y ∨ ∃ p, x.data = p ++ '.' :: y.data) ∧
    isSubdomain "weave.local" "weave.local" = true ∧
    isSubdomain "foo.weave.local" "weave.local" = true ∧
    isSubdomain "notweave.local" "weave.local" = false ∧
    isSubdomain "weave.local2" "weave.local" = false := by
  refine ⟨fun x y => ?_, by decide, by decide, by decide, by decide⟩
  unfold isSubdomain hasSuffix
  rw [Bool.or_eq_true, beq_iff_eq, List.isSuffixOf_iff_suffix]
  constructor
  · rintro (h | ⟨t, ht⟩)
    · exact Or.inl h
    · refine Or.inr ⟨t, ?_⟩
      rw [← ht, String.data_append]
      rfl
  · rintro (h | ⟨p, hp⟩)
    · exact Or.inl h
    · refine Or.inr ⟨p, ?_⟩
      rw [hp, String.data_append]
      rfl

/-! ## Claims about the endpoint handlers -/

lemma goSliceTo_of_le (s : String) (h : 5 ≤ s.length) :
    goSliceTo s 5 = some ⟨s.data.take 5⟩ := by
  simp [goSliceTo, h]

lemma joinEndpoint_created (nl : Netlink) (s : DriverState) (a : String)
    (h : 5 ≤ a.length) :
    (joinEndpoint nl s a).map JoinOutcome.created = some (vethPair ⟨a.data.take 5⟩) := by
  simp only [joinEndpoint, goSliceTo_of_le a h, Option.map_some', Option.some.injEq]
  split
  · rfl
  · split
    · rfl
    · rfl
    · split
      · rfl
      · rfl

lemma leaveEndpoint_deleted (nl : Netlink) (a : String) (h : 5 ≤ a.length) :
    (leaveEndpoint nl a).map LeaveOutcome.deleted = some (vethPair ⟨a.data.take 5⟩) := by
  simp only [leaveEndpoint, goSliceTo_of_le a h, Option.map_some']

/-- Claim C5: for an endpoint id of length at least 5, Join and Leave
derive the identical veth pair, namely `vethPair` of the first 5 characters
of the id, so the derivation is a pure function of exactly that 5-character
slice: two ids sharing it map to the same pair of device names. -/
theorem claim5 :
    ∀ (nlj nll : Netlink) (s : DriverState) (a b : String),
      5 ≤ a.length →
      ((joinEndpoint nlj s a).map JoinOutcome.created =
        (leaveEndpoint nll a).map LeaveOutcome.deleted) ∧
      ((joinEndpoint nlj s a).map JoinOutcome.created =
        some (vethPair ⟨a.data.take 5⟩)) ∧
      (a.data.take 5 = b.data.take 5 →
        (leaveEndpoint nll a).map LeaveOutcome.deleted =
          (leaveEndpoint nll b).map LeaveOutcome.deleted) := by
  intro nlj nll s a b ha
  have hj := joinEndpoint_created nlj s a ha
  have hla := leaveEndpoint_deleted nll a ha
  refine ⟨hj.trans hla.symm, hj, fun hab => ?_⟩
  have hb : 5 ≤ b.length := by
    have h2 : (b.data.take 5).length = (a.data.take 5).length := by rw [hab]
    have h3 : a.data.length = a.length := rfl
    have h4 : b.data.length = b.length := rfl
    simp only [List.length_take] at h2
    omega
  rw [hla, leaveEndpoint_deleted nll b hb, hab]

/-- Witness for C5 at the id `abcdefgh`, whose first 5 characters agree
with those of `abcdeXY`. -/
theorem claim5_witness :
    (joinEndpoint ⟨fun _ => true, .bridge, true, true, fun _ => true⟩ ⟨"", "", []⟩
        "abcdefgh").map JoinOutcome.created =
      (leaveEndpoint ⟨fun _ => true, .bridge, true, true, fun _ => true⟩
        "abcdefgh").map LeaveOutcome.deleted :=
  (claim5 ⟨fun _ => true, .bridge, true, true, fun _ => true⟩
    ⟨fun _ => true, .bridge, true, true, fun _ => true⟩ ⟨"", "", []⟩
    "abcdefgh" "abcdeXY" (by decide)).1

/-- Claim C6: DeleteEndpoint acknowledges with the empty payload no matter
what the address release returns, and Leave (on an id long enough to pass
the slice) acknowledges with the empty payload no matter what the device
deletion returns: collaborator errors on the cleanup path are logged, never
surfaced. -/
theorem claim6 :
    ∀ (releaseIP : String → Option String) (nl : Netlink) (endpointID : String),
      (deleteEndpoint releaseIP endpointID).response = Response.empty ∧
      (5 ≤ endpointID.length →
        (leaveEndpoint nl endpointID).map LeaveOutcome.response =
          some Response.empty) := by
  intro releaseIP nl endpointID
  refine ⟨rfl, fun h => ?_⟩
  simp only [leaveEndpoint, goSliceTo_of_le endpointID h, Option.map_some']

/-- Witness for C6 with collaborators that fail: the release oracle
reports an error and the netlink oracle fails every deletion, yet both
handlers answer with the empty acknowledgment. -/
theorem claim6_witness :
    (deleteEndpoint (fun _ => some "release failed") "ep1").response = Response.empty ∧
    (leaveEndpoint ⟨fun _ => true, .bridge, true, true, fun _ => false⟩
        "abcdefgh").map LeaveOutcome.response = some Response.empty :=
  ⟨(claim6 (fun _ => some "release failed")
      ⟨fun _ => true, .bridge, true, true, fun _ => false⟩ "ep1").1,
   (claim6 (fun _ => some "release failed")
      ⟨fun _ => true, .bridge, true, true, fun _ => false⟩ "abcdefgh").2 (by decide)⟩

/-- Claim C7: a CreateEndpoint whose network id is not the stored one
fails with the no-such-network payload and issues no call at all to the
address allocator. -/
theorem claim7 :
    ∀ (alloc : String → Option IPNet) (s : DriverState) (networkID endpointID : String),
      networkID ≠ s.network →
      createEndpoint alloc s networkID endpointID =
        (Response.errPayload ("No such network " ++ networkID), []) := by
  intro alloc s networkID endpointID h
  simp [createEndpoint, h]

/-- Witness for C7: creating an endpoint on `other` while `net1` is the
managed network fails and records no allocator call. -/
theorem claim7_witness :
    createEndpoint (fun _ => some ⟨⟨10, 0, 0, 1⟩, 24⟩) ⟨"net1", "", ["net1"]⟩
        "other" "ep1" =
      (Response.errPayload ("No such network " ++ "other"), []) :=
  claim7 (fun _ => some ⟨⟨10, 0, 0, 1⟩, 24⟩) ⟨"net1", "", ["net1"]⟩ "other" "ep1"
    (by decide)

/-- Claim C10 (amended): the slice `endID[:5]` taken by Join and Leave is
within bounds exactly when the endpoint id has at least 5 characters; for
such ids both handlers produce a response, while for a shorter id the slice
is out of range and the handler panics (modelled as `none`). -/
theorem claim10_amended :
    ∀ (nl : Netlink) (s : DriverState) (endpointID : String),
      (5 ≤ endpointID.length →
        (joinEndpoint nl s endpointID).isSome ∧ (leaveEndpoint nl endpointID).isSome) ∧
      (endpointID.length < 5 →
        joinEndpoint nl s endpointID = none ∧ leaveEndpoint nl endpointID = none) := by
  intro nl s endpointID
  constructor
  · intro h
    constructor
    · simp [joinEndpoint, goSliceTo_of_le endpointID h]
    · simp [leaveEndpoint, goSliceTo_of_le endpointID h]
  · intro h
    have hg : goSliceTo endpointID 5 = none := by
      unfold goSliceTo
      rw [if_neg (by omega)]
    exact ⟨by simp [joinEndpoint, hg], by simp [leaveEndpoint, hg]⟩

/-- Witness for C10: both handlers produce a response at the 8-character
id `abcdefgh`, and both panic at the 3-character id `abc`. -/
theorem claim10_witness :
    ((joinEndpoint ⟨fun _ => true, .bridge, true, true, fun _ => true⟩ ⟨"", "", []⟩
        "abcdefgh").isSome ∧
      (leaveEndpoint ⟨fun _ => true, .bridge, true, true, fun _ => true⟩
        "abcdefgh").isSome) ∧
    (joinEndpoint ⟨fun _ => true, .bridge, true, true, fun _ => true⟩ ⟨"", "", []⟩
        "abc" = none ∧
      leaveEndpoint ⟨fun _ => true, .bridge, true, true, fun _ => true⟩ "abc" = none) :=
  ⟨(claim10_amended ⟨fun _ => true, .bridge, true, true, fun _ => true⟩ ⟨"", "", []⟩
      "abcdefgh").1 (by decide),
   (claim10_amended ⟨fun _ => true, .bridge, true, true, fun _ => true⟩ ⟨"", "", []⟩
      "abc").2 (by decide)⟩

/-- Counterexample to C10 as stated: the handlers are not safe for every
endpoint id — on the 3-character id `abc` the slice `endID[:5]` is out of
bounds and both Join and Leave panic instead of producing a response. -/
theorem claim10_counterexample :
    joinEndpoint ⟨fun _ => true, .bridge, true, true, fun _ => true⟩
        ⟨"net1", "", ["net1"]⟩ "abc" = none ∧
      leaveEndpoint ⟨fun _ => true, .bridge, true, true, fun _ => true⟩ "abc" = none := by
  constructor <;> rfl

end WeavePlugin
